import Mathlib

/-!
Shallow embedding of the eBPF interpreter (`main.go`): instruction decoding,
the mutable machine state, the per-opcode `Execute` dispatch, and the
fetch-execute loop of `Interpret`.  Go `int64` arithmetic wraps modulo `2^64`
(two's complement); this is made explicit through `wrapS`.  Go runtime panics
(out-of-range indexing, integer division by zero) are modelled as explicit
`panic` outcomes, distinct from the `error` values the Go code returns
(`"exit"`, `"unsupported opcode"`).
-/

namespace EBPF

set_option maxRecDepth 8000

/-- Interpret an integer modulo `2 ^ bits` as a signed two's-complement value
in `[-2^(bits-1), 2^(bits-1))`.  `wrapS 64` is the semantics of Go `int64`
overflow, `wrapS 32` of the conversion `int32(x)`, and so on. -/
def wrapS (bits : Nat) (n : Int) : Int :=
  (n + 2 ^ (bits - 1)) % 2 ^ bits - 2 ^ (bits - 1)

/-- Go `int64` wrap-around. -/
def wrap64 (n : Int) : Int := wrapS 64 n

/-- Go conversion `uint64(x)` of a signed value: the representative of
`x` modulo `2^64` in `[0, 2^64)`. -/
def toU64 (n : Int) : Nat := (n % 2 ^ 64).toNat

/-- Go conversion to an unsigned `bits`-wide value. -/
def toU (bits : Nat) (n : Int) : Nat := (n % 2 ^ bits).toNat

/-- A decoded eBPF instruction (`Instruction` in `main.go`).
`Opcode`, `Dst`, `Src` are byte/nibble values; `Offset` is a signed 16-bit
value and `Imm` a signed 32-bit value. -/
structure Instruction where
  Opcode : Nat
  Dst : Nat
  Src : Nat
  Offset : Int
  Imm : Int
deriving DecidableEq, Repr

/-- The interpreter state (`State` in `main.go`): a byte memory, the register
file (a length-11 array of `int64` in the source, here a list whose length is
11 in every state the interpreter builds), and the program counter. -/
structure State where
  Memory : List Nat
  Regs : List Int
  PC : Int
deriving DecidableEq, Repr

/-- `MemorySize` in `main.go`. -/
def MemorySize : Nat := 65536

/-- Byte read used inside the bounds-checked region (Go slice indexing);
the default is never consulted at in-bounds addresses. -/
def getByte (m : List Nat) (a : Int) : Nat := m.getD a.toNat 0

/-- Result of one store helper.  `fault` is the returned
"memory access out of bounds" error (which `Execute` discards); `panic` is
the Go runtime panic raised by the slice/index expression when the guard's
wrapping `address + width` overflows, so the check passes although the
access is out of range; `ok` carries the updated memory. -/
inductive StoreResult where
  | fault
  | panic
  | ok (m : List Nat)
deriving DecidableEq, Repr

/-- The bounds guard of every load/store helper:
`address < 0 || address+width > int64(len(s.Memory))`, where `address+width`
is Go `int64` addition and therefore wraps. -/
def memGuardFails (m : List Nat) (a : Int) (w : Nat) : Prop :=
  a < 0 ∨ wrap64 (a + w) > (m.length : Int)

instance (m : List Nat) (a : Int) (w : Nat) : Decidable (memGuardFails m a w) :=
  inferInstanceAs (Decidable (a < 0 ∨ wrap64 (a + (w : Int)) > (m.length : Int)))

/-- `State.loadWord`: the wrapping bounds check, then
`int64(binary.LittleEndian.Uint32(...))`, a zero-extension of the 32-bit
value.  `some 0` is the guarded out-of-bounds path (the helper returns 0);
`none` is the Go runtime panic of the slice expression on an `int64` address
in `[2^63-4, 2^63)`, where `address+4` wraps negative, the guard passes, and
the real comparison `address + 4 > len` (computed here unwrapped) fails. -/
def loadWordMem (m : List Nat) (a : Int) : Option Int :=
  if memGuardFails m a 4 then some 0
  else if a + 4 > (m.length : Int) then none
  else some ((getByte m a + 256 * getByte m (a + 1) + 65536 * getByte m (a + 2) +
    16777216 * getByte m (a + 3) : Nat) : Int)

/-- `State.loadHalfWord`: `int64(int16(binary.LittleEndian.Uint16(...)))`,
a sign-extension of the 16-bit value; 0 on the guarded out-of-bounds path,
`none` for the slice-bounds panic of the overflow corner. -/
def loadHalfWordMem (m : List Nat) (a : Int) : Option Int :=
  if memGuardFails m a 2 then some 0
  else if a + 2 > (m.length : Int) then none
  else some (wrapS 16 ((getByte m a : Int) + 256 * (getByte m (a + 1) : Int)))

/-- `State.loadByte`: `int64(int8(...))`, a sign-extension of the byte;
0 on the guarded out-of-bounds path, `none` for the index-out-of-range
panic at address `2^63-1`, where the guard's `address+1` wraps. -/
def loadByteMem (m : List Nat) (a : Int) : Option Int :=
  if memGuardFails m a 1 then some 0
  else if a + 1 > (m.length : Int) then none
  else some (wrapS 8 ((getByte m a : Int)))

/-- `State.loadDoubleWord`: `int64(binary.LittleEndian.Uint64(...))`;
0 on the guarded out-of-bounds path, `none` for the slice-bounds panic of
the overflow corner. -/
def loadDoubleWordMem (m : List Nat) (a : Int) : Option Int :=
  if memGuardFails m a 8 then some 0
  else if a + 8 > (m.length : Int) then none
  else some (wrap64 ((getByte m a + 256 * getByte m (a + 1) + 65536 * getByte m (a + 2) +
    16777216 * getByte m (a + 3) + 4294967296 * getByte m (a + 4) +
    1099511627776 * getByte m (a + 5) + 281474976710656 * getByte m (a + 6) +
    72057594037927936 * getByte m (a + 7) : Nat) : Int))

/-- `State.storeWord`: the wrapping bounds check (error returned as
`fault`), the slice-bounds panic of the overflow corner, then the four
little-endian bytes of `uint32(value)`. -/
def storeWordMem (m : List Nat) (a : Int) (v : Int) : StoreResult :=
  if memGuardFails m a 4 then .fault
  else if a + 4 > (m.length : Int) then .panic
  else
    .ok ((((m.set a.toNat (toU 32 v % 256)).set
      (a.toNat + 1) (toU 32 v / 256 % 256)).set
      (a.toNat + 2) (toU 32 v / 65536 % 256)).set
      (a.toNat + 3) (toU 32 v / 16777216 % 256))

/-- `State.storeHalfWord`. -/
def storeHalfWordMem (m : List Nat) (a : Int) (v : Int) : StoreResult :=
  if memGuardFails m a 2 then .fault
  else if a + 2 > (m.length : Int) then .panic
  else
    .ok ((m.set a.toNat (toU 16 v % 256)).set (a.toNat + 1) (toU 16 v / 256 % 256))

/-- `State.storeByte`. -/
def storeByteMem (m : List Nat) (a : Int) (v : Int) : StoreResult :=
  if memGuardFails m a 1 then .fault
  else if a + 1 > (m.length : Int) then .panic
  else .ok (m.set a.toNat (toU 8 v))

/-- `State.storeDoubleWord`. -/
def storeDoubleWordMem (m : List Nat) (a : Int) (v : Int) : StoreResult :=
  if memGuardFails m a 8 then .fault
  else if a + 8 > (m.length : Int) then .panic
  else
    .ok ((((((((m.set a.toNat (toU 64 v % 256)).set
      (a.toNat + 1) (toU 64 v / 256 % 256)).set
      (a.toNat + 2) (toU 64 v / 65536 % 256)).set
      (a.toNat + 3) (toU 64 v / 16777216 % 256)).set
      (a.toNat + 4) (toU 64 v / 4294967296 % 256)).set
      (a.toNat + 5) (toU 64 v / 1099511627776 % 256)).set
      (a.toNat + 6) (toU 64 v / 281474976710656 % 256)).set
      (a.toNat + 7) (toU 64 v / 72057594037927936 % 256))

/-- The kinds of Go runtime panic the interpreter can hit.
`indexOutOfRange` is an out-of-range index into the register array, the
decoded program, or the bytecode slice; `memAccessOutOfRange` is the panic
of a memory access whose wrapping bounds check passed although the access
is out of range (Go reports it as "index out of range" for the single-byte
accesses and "slice bounds out of range" for the wider ones);
`divideByZero` is integer division or modulo by zero. -/
inductive PanicKind where
  | indexOutOfRange
  | memAccessOutOfRange
  | divideByZero
deriving DecidableEq, Repr

/-- Result of `State.Execute` on one instruction: `ok` is a `nil` error with
the updated state, `exit` is the `errors.New("exit")` return (state
unchanged), `unknownOpcode` the `errors.New("unsupported opcode")` return
(state unchanged), and `panic` a Go runtime panic that aborts the run. -/
inductive Outcome where
  | ok (s : State)
  | exit
  | unknownOpcode
  | panic (k : PanicKind)
deriving DecidableEq, Repr

/-- Read `s.Regs[i]`; `none` models the index-out-of-range panic. -/
def readReg (s : State) (i : Nat) : Option Int := s.Regs[i]?

/-- Write `s.Regs[i] = v` (the stored value wraps to `int64`); `none` models
the index-out-of-range panic on the write. -/
def writeReg (s : State) (i : Nat) (v : Int) : Option State :=
  if i < s.Regs.length then some { s with Regs := s.Regs.set i (wrap64 v) }
  else none

/-- Sequence a fallible register access, turning `none` into the
index-out-of-range panic. -/
def bindR {α : Type} : Option α → (α → Outcome) → Outcome
  | none, _ => .panic .indexOutOfRange
  | some a, f => f a

/-- Sequence a fallible memory read, turning `none` into the
memory-access panic. -/
def bindM {α : Type} : Option α → (α → Outcome) → Outcome
  | none, _ => .panic .memAccessOutOfRange
  | some a, f => f a

/-- How `Execute` consumes a store helper's result: the returned
out-of-bounds error is discarded (the state is unchanged and execution
continues as if nothing happened), a Go runtime panic aborts the run, and
a successful store updates the memory. -/
def applyStore (s : State) : StoreResult → Outcome
  | .fault => .ok s
  | .panic => .panic .memAccessOutOfRange
  | .ok m => .ok { s with Memory := m }

/-- Go `x << n` on `int64` with an unsigned count: zero once every bit is
shifted out, otherwise multiplication by `2^n` (wrapped on write-back). -/
def shlVal (d : Int) (n : Nat) : Int := if 64 ≤ n then 0 else d * 2 ^ n

/-- Go `x >> n` on `int64` (an arithmetic shift, i.e. floor division):
all sign bits once the count reaches 64. -/
def sarVal (d : Int) (n : Nat) : Int :=
  if 64 ≤ n then (if d < 0 then -1 else 0) else d / 2 ^ n

/-- Go `int64(uint64(x) >> n)`: the logical shift the source uses for the
ARSH opcodes. -/
def lsrVal (d : Int) (n : Nat) : Int :=
  if 64 ≤ n then 0 else d % 2 ^ 64 / 2 ^ n

/-- `State.Execute` from `main.go`: the opcode dispatch.  Each case mirrors
the corresponding `case` of the Go `switch`, including the defects the
source carries (the empty `ALU64_MUL_REG` case, the logical shift in the
ARSH cases, the unguarded divisions, and the discarded store errors).
Effective addresses `reg + offset` are the wrapping Go `int64` sums. -/
def Execute (i : Instruction) (s : State) : Outcome :=
  if i.Opcode = 0x07 then
    bindR (readReg s i.Dst) fun d => bindR (writeReg s i.Dst (d + i.Imm)) .ok
  else if i.Opcode = 0x0f then
    bindR (readReg s i.Dst) fun d => bindR (readReg s i.Src) fun v =>
      bindR (writeReg s i.Dst (d + v)) .ok
  else if i.Opcode = 0x17 then
    bindR (readReg s i.Dst) fun d => bindR (writeReg s i.Dst (d - i.Imm)) .ok
  else if i.Opcode = 0x1f then
    bindR (readReg s i.Dst) fun d => bindR (readReg s i.Src) fun v =>
      bindR (writeReg s i.Dst (d - v)) .ok
  else if i.Opcode = 0x27 then
    bindR (readReg s i.Dst) fun d => bindR (writeReg s i.Dst (d * i.Imm)) .ok
  else if i.Opcode = 0x2f then
    Outcome.ok s
  else if i.Opcode = 0x37 then
    bindR (readReg s i.Dst) fun d =>
      if i.Imm = 0 then .panic .divideByZero
      else bindR (writeReg s i.Dst (Int.tdiv d i.Imm)) .ok
  else if i.Opcode = 0x3f then
    bindR (readReg s i.Dst) fun d => bindR (readReg s i.Src) fun v =>
      if v = 0 then .panic .divideByZero
      else bindR (writeReg s i.Dst (Int.tdiv d v)) .ok
  else if i.Opcode = 0x47 then
    bindR (readReg s i.Dst) fun d => bindR (writeReg s i.Dst (Int.lor d i.Imm)) .ok
  else if i.Opcode = 0x4f then
    bindR (readReg s i.Dst) fun d => bindR (readReg s i.Src) fun v =>
      bindR (writeReg s i.Dst (Int.lor d v)) .ok
  else if i.Opcode = 0x57 then
    bindR (readReg s i.Dst) fun d => bindR (writeReg s i.Dst (Int.land d i.Imm)) .ok
  else if i.Opcode = 0x5f then
    bindR (readReg s i.Dst) fun d => bindR (readReg s i.Src) fun v =>
      bindR (writeReg s i.Dst (Int.land d v)) .ok
  else if i.Opcode = 0x67 then
    bindR (readReg s i.Dst) fun d => bindR (writeReg s i.Dst (shlVal d (toU64 i.Imm))) .ok
  else if i.Opcode = 0x6f then
    bindR (readReg s i.Dst) fun d => bindR (readReg s i.Src) fun v =>
      bindR (writeReg s i.Dst (shlVal d (toU64 v))) .ok
  else if i.Opcode = 0x77 then
    bindR (readReg s i.Dst) fun d => bindR (writeReg s i.Dst (sarVal d (toU64 i.Imm))) .ok
  else if i.Opcode = 0x7f then
    bindR (readReg s i.Dst) fun d => bindR (readReg s i.Src) fun v =>
      bindR (writeReg s i.Dst (sarVal d (toU64 v))) .ok
  else if i.Opcode = 0x87 then
    bindR (readReg s i.Dst) fun d => bindR (writeReg s i.Dst (-d)) .ok
  else if i.Opcode = 0x97 then
    bindR (readReg s i.Dst) fun d =>
      if i.Imm = 0 then .panic .divideByZero
      else bindR (writeReg s i.Dst (Int.tmod d i.Imm)) .ok
  else if i.Opcode = 0x9f then
    bindR (readReg s i.Dst) fun d => bindR (readReg s i.Src) fun v =>
      if v = 0 then .panic .divideByZero
      else bindR (writeReg s i.Dst (Int.tmod d v)) .ok
  else if i.Opcode = 0xa7 then
    bindR (readReg s i.Dst) fun d => bindR (writeReg s i.Dst (Int.xor d i.Imm)) .ok
  else if i.Opcode = 0xaf then
    bindR (readReg s i.Dst) fun d => bindR (readReg s i.Src) fun v =>
      bindR (writeReg s i.Dst (Int.xor d v)) .ok
  else if i.Opcode = 0xb7 then
    bindR (writeReg s i.Dst i.Imm) .ok
  else if i.Opcode = 0xbf then
    bindR (readReg s i.Src) fun v => bindR (writeReg s i.Dst v) .ok
  else if i.Opcode = 0xc7 then
    bindR (readReg s i.Dst) fun d => bindR (writeReg s i.Dst (lsrVal d (toU64 i.Imm))) .ok
  else if i.Opcode = 0xcf then
    bindR (readReg s i.Dst) fun d => bindR (readReg s i.Src) fun v =>
      bindR (writeReg s i.Dst (lsrVal d (toU64 v))) .ok
  else if i.Opcode = 0x18 then
    bindR (writeReg s i.Dst i.Imm) .ok
  else if i.Opcode = 0x61 then
    bindR (readReg s i.Src) fun v =>
      bindM (loadWordMem s.Memory (wrap64 (v + i.Offset))) fun r =>
      bindR (writeReg s i.Dst r) .ok
  else if i.Opcode = 0x69 then
    bindR (readReg s i.Src) fun v =>
      bindM (loadHalfWordMem s.Memory (wrap64 (v + i.Offset))) fun r =>
      bindR (writeReg s i.Dst r) .ok
  else if i.Opcode = 0x71 then
    bindR (readReg s i.Src) fun v =>
      bindM (loadByteMem s.Memory (wrap64 (v + i.Offset))) fun r =>
      bindR (writeReg s i.Dst r) .ok
  else if i.Opcode = 0x79 then
    bindR (readReg s i.Src) fun v =>
      bindM (loadDoubleWordMem s.Memory (wrap64 (v + i.Offset))) fun r =>
      bindR (writeReg s i.Dst r) .ok
  else if i.Opcode = 0x62 then
    bindR (readReg s i.Dst) fun d =>
      applyStore s (storeWordMem s.Memory (wrap64 (d + i.Offset)) i.Imm)
  else if i.Opcode = 0x6a then
    bindR (readReg s i.Dst) fun d =>
      applyStore s (storeHalfWordMem s.Memory (wrap64 (d + i.Offset)) (wrapS 16 i.Imm))
  else if i.Opcode = 0x72 then
    bindR (readReg s i.Dst) fun d =>
      applyStore s (storeByteMem s.Memory (wrap64 (d + i.Offset)) (wrapS 8 i.Imm))
  else if i.Opcode = 0x7a then
    bindR (readReg s i.Dst) fun d =>
      applyStore s (storeDoubleWordMem s.Memory (wrap64 (d + i.Offset)) i.Imm)
  else if i.Opcode = 0x63 then
    bindR (readReg s i.Dst) fun d => bindR (readReg s i.Src) fun v =>
      applyStore s (storeWordMem s.Memory (wrap64 (d + i.Offset)) (wrapS 32 v))
  else if i.Opcode = 0x6b then
    bindR (readReg s i.Dst) fun d => bindR (readReg s i.Src) fun v =>
      applyStore s (storeHalfWordMem s.Memory (wrap64 (d + i.Offset)) (wrapS 16 v))
  else if i.Opcode = 0x73 then
    bindR (readReg s i.Dst) fun d => bindR (readReg s i.Src) fun v =>
      applyStore s (storeByteMem s.Memory (wrap64 (d + i.Offset)) (wrapS 8 v))
  else if i.Opcode = 0x7b then
    bindR (readReg s i.Dst) fun d => bindR (readReg s i.Src) fun v =>
      applyStore s (storeDoubleWordMem s.Memory (wrap64 (d + i.Offset)) v)
  else if i.Opcode = 0x05 then
    .ok { s with PC := s.PC + i.Offset }
  else if i.Opcode = 0x15 then
    bindR (readReg s i.Dst) fun d =>
      .ok (if d = i.Imm then { s with PC := s.PC + i.Offset } else s)
  else if i.Opcode = 0x1d then
    bindR (readReg s i.Dst) fun d => bindR (readReg s i.Src) fun v =>
      .ok (if d = v then { s with PC := s.PC + i.Offset } else s)
  else if i.Opcode = 0x25 then
    bindR (readReg s i.Dst) fun d =>
      .ok (if d > i.Imm then { s with PC := s.PC + i.Offset } else s)
  else if i.Opcode = 0x2d then
    bindR (readReg s i.Dst) fun d => bindR (readReg s i.Src) fun v =>
      .ok (if d > v then { s with PC := s.PC + i.Offset } else s)
  else if i.Opcode = 0x35 then
    bindR (readReg s i.Dst) fun d =>
      .ok (if d ≥ i.Imm then { s with PC := s.PC + i.Offset } else s)
  else if i.Opcode = 0x3d then
    bindR (readReg s i.Dst) fun d => bindR (readReg s i.Src) fun v =>
      .ok (if d ≥ v then { s with PC := s.PC + i.Offset } else s)
  else if i.Opcode = 0xa5 then
    bindR (readReg s i.Dst) fun d =>
      .ok (if d < i.Imm then { s with PC := s.PC + i.Offset } else s)
  else if i.Opcode = 0xad then
    bindR (readReg s i.Dst) fun d => bindR (readReg s i.Src) fun v =>
      .ok (if d < v then { s with PC := s.PC + i.Offset } else s)
  else if i.Opcode = 0xb5 then
    bindR (readReg s i.Dst) fun d =>
      .ok (if d ≤ i.Imm then { s with PC := s.PC + i.Offset } else s)
  else if i.Opcode = 0xbd then
    bindR (readReg s i.Dst) fun d => bindR (readReg s i.Src) fun v =>
      .ok (if d ≤ v then { s with PC := s.PC + i.Offset } else s)
  else if i.Opcode = 0x45 then
    bindR (readReg s i.Dst) fun d =>
      .ok (if Int.land d i.Imm ≠ 0 then { s with PC := s.PC + i.Offset } else s)
  else if i.Opcode = 0x4d then
    bindR (readReg s i.Dst) fun d => bindR (readReg s i.Src) fun v =>
      .ok (if Int.land d v ≠ 0 then { s with PC := s.PC + i.Offset } else s)
  else if i.Opcode = 0x55 then
    bindR (readReg s i.Dst) fun d =>
      .ok (if d ≠ i.Imm then { s with PC := s.PC + i.Offset } else s)
  else if i.Opcode = 0x5d then
    bindR (readReg s i.Dst) fun d => bindR (readReg s i.Src) fun v =>
      .ok (if d ≠ v then { s with PC := s.PC + i.Offset } else s)
  else if i.Opcode = 0x65 then
    bindR (readReg s i.Dst) fun d =>
      .ok (if d > i.Imm then { s with PC := s.PC + i.Offset } else s)
  else if i.Opcode = 0x6d then
    bindR (readReg s i.Dst) fun d => bindR (readReg s i.Src) fun v =>
      .ok (if d > v then { s with PC := s.PC + i.Offset } else s)
  else if i.Opcode = 0x75 then
    bindR (readReg s i.Dst) fun d =>
      .ok (if d ≥ i.Imm then { s with PC := s.PC + i.Offset } else s)
  else if i.Opcode = 0x7d then
    bindR (readReg s i.Dst) fun d => bindR (readReg s i.Src) fun v =>
      .ok (if d ≥ v then { s with PC := s.PC + i.Offset } else s)
  else if i.Opcode = 0xc5 then
    bindR (readReg s i.Dst) fun d =>
      .ok (if d < i.Imm then { s with PC := s.PC + i.Offset } else s)
  else if i.Opcode = 0xcd then
    bindR (readReg s i.Dst) fun d => bindR (readReg s i.Src) fun v =>
      .ok (if d < v then { s with PC := s.PC + i.Offset } else s)
  else if i.Opcode = 0xd5 then
    bindR (readReg s i.Dst) fun d =>
      .ok (if d ≤ i.Imm then { s with PC := s.PC + i.Offset } else s)
  else if i.Opcode = 0xdd then
    bindR (readReg s i.Dst) fun d => bindR (readReg s i.Src) fun v =>
      .ok (if d ≤ v then { s with PC := s.PC + i.Offset } else s)
  else if i.Opcode = 0x85 then
    bindR (writeReg s 8 (s.PC + 1)) fun t => .ok { t with PC := t.PC + i.Offset }
  else if i.Opcode = 0x95 then
    .exit
  else
    .unknownOpcode

/-- One decoded instruction of `Interpret`: byte 0 the opcode, byte 1 split
into the low-nibble `Dst` and high-nibble `Src`
(`bytecode[i+1] & 0x0F` and `(bytecode[i+1] >> 4) & 0x0F`), bytes 2-3 the
little-endian signed 16-bit offset, bytes 4-7 the little-endian signed
32-bit immediate. -/
def mkInsn (b0 b1 b2 b3 b4 b5 b6 b7 : Nat) : Instruction :=
  { Opcode := b0
  , Dst := b1 % 16
  , Src := b1 / 16 % 16
  , Offset := wrapS 16 ((b2 : Int) + 256 * (b3 : Int))
  , Imm := wrapS 32 ((b4 : Int) + 256 * (b5 : Int) + 65536 * (b6 : Int) +
      16777216 * (b7 : Int)) }

/-- The decode loop of `Interpret`: one instruction per full 8-byte chunk, in
source order.  A non-empty trailing chunk of fewer than 8 bytes makes the Go
loop index past the end of the slice, a runtime panic; that is the final
`none` case. -/
def decodeChunks : List Nat → Option (List Instruction)
  | [] => some []
  | b0 :: b1 :: b2 :: b3 :: b4 :: b5 :: b6 :: b7 :: rest =>
    match decodeChunks rest with
    | none => none
    | some is => some (mkInsn b0 b1 b2 b3 b4 b5 b6 b7 :: is)
  | _ => none

/-- How one run of `Interpret` ends: `exited` via the exit instruction,
`unknown` via an unsupported opcode, `fellOff` when the program counter
leaves the program (the loop condition fails), `panicked` on a Go runtime
panic.  The carried state is the state `Interpret` goes on to print. -/
inductive RunResult where
  | exited (s : State)
  | unknown (s : State)
  | fellOff (s : State)
  | panicked (k : PanicKind)
deriving DecidableEq, Repr

/-- The fetch-execute loop of `Interpret`, with an explicit fuel bound
(the Go loop has none and can run forever; `none` means the fuel ran out).
Fetching at a negative program counter is an index-out-of-range panic. -/
def runLoop (prog : List Instruction) : State → Nat → Option RunResult
  | _, 0 => none
  | s, fuel + 1 =>
    if s.PC < (prog.length : Int) then
      if s.PC < 0 then some (.panicked .indexOutOfRange)
      else
        match prog[s.PC.toNat]? with
        | none => some (.panicked .indexOutOfRange)
        | some instr =>
          match Execute instr s with
          | .ok t => runLoop prog { t with PC := t.PC + 1 } fuel
          | .exit => some (.exited s)
          | .unknownOpcode => some (.unknown s)
          | .panic k => some (.panicked k)
    else some (.fellOff s)

/-- The state `Interpret` starts from: the Go zero value `State{}` — a nil
memory, eleven zero registers, program counter 0. -/
def initState : State := { Memory := [], Regs := List.replicate 11 0, PC := 0 }

/-- `Interpret` from `main.go`, with the loop given explicit fuel: decode the
bytecode, then run from the zero state. -/
def InterpretFuel (bytecode : List Nat) (fuel : Nat) : Option RunResult :=
  match decodeChunks bytecode with
  | none => some (.panicked .indexOutOfRange)
  | some prog => runLoop prog initState fuel

/-- The hardcoded sample program of `main`. -/
def sampleBytecode : List Nat :=
  [0xb7, 0x01, 0x00, 0x00, 0x05, 0x00, 0x00, 0x00,
   0xb7, 0x02, 0x00, 0x00, 0x09, 0x00, 0x00, 0x00,
   0x0f, 0x21, 0x02, 0x00, 0x00, 0x00, 0x00, 0x00,
   0xbf, 0x10, 0x00, 0x00, 0x00, 0x00, 0x00, 0x00,
   0x17, 0x00, 0x00, 0x00, 0x03, 0x00, 0x00, 0x00,
   0x95, 0x00, 0x00, 0x00, 0x00, 0x00, 0x00, 0x00]

/-- The state exercising the overflow corner of the bounds guard:
register 0 holds `2^63 - 2`, so a word access at it wraps the guard's
`address + 4` negative. -/
def hugeAddrState : State :=
  { Memory := [], Regs := [9223372036854775806, 0, 0, 0, 0, 0, 0, 0, 0, 0, 0],
    PC := 0 }

/-- The final state the sample program reaches. -/
def sampleFinalState : State :=
  { Memory := [], Regs := [11, 14, 9, 0, 0, 0, 0, 0, 0, 0, 0], PC := 5 }

/-- Spec-side reading of a byte as a signed 8-bit value. -/
def sint8 (n : Nat) : Int := if n < 128 then (n : Int) else (n : Int) - 256

/-- Spec-side reading of a 16-bit quantity as a signed value
("interpreted as a signed 16-bit little-endian value"). -/
def sint16 (n : Nat) : Int := if n < 32768 then (n : Int) else (n : Int) - 65536

/-- Spec-side reading of a 32-bit quantity as a signed value. -/
def sint32 (n : Nat) : Int :=
  if n < 2147483648 then (n : Int) else (n : Int) - 4294967296

/-- The instruction record the spec describes for the `k`-th 8-byte group:
byte 0 the opcode, low nibble of byte 1 the dst, high nibble the src,
bytes 2-3 the signed 16-bit little-endian offset, bytes 4-7 the signed
32-bit little-endian immediate.  Written from the spec's words, to be
compared with the decoder `mkInsn`/`decodeChunks` embedded from the source. -/
def specDecode (b : List Nat) (k : Nat) : Instruction :=
  { Opcode := b.getD (8 * k) 0
  , Dst := b.getD (8 * k + 1) 0 % 16
  , Src := b.getD (8 * k + 1) 0 / 16
  , Offset := sint16 (b.getD (8 * k + 2) 0 + 256 * b.getD (8 * k + 3) 0)
  , Imm := sint32 (b.getD (8 * k + 4) 0 + 256 * b.getD (8 * k + 5) 0 +
      65536 * b.getD (8 * k + 6) 0 + 16777216 * b.getD (8 * k + 7) 0) }

/-- The access width of each store opcode (`STW`, `STXW`, `STH`, `STXH`,
`STB`, `STXB`, `STDW`, `STXDW`); `none` for every other opcode. -/
def storeWidth (op : Nat) : Option Nat :=
  if op = 0x62 ∨ op = 0x63 then some 4
  else if op = 0x6a ∨ op = 0x6b then some 2
  else if op = 0x72 ∨ op = 0x73 then some 1
  else if op = 0x7a ∨ op = 0x7b then some 8
  else none

/-- The access width of each register-load opcode (`LDXW`, `LDXH`, `LDXB`,
`LDXDW`); `none` for every other opcode. -/
def loadWidthOp (op : Nat) : Option Nat :=
  if op = 0x61 then some 4
  else if op = 0x69 then some 2
  else if op = 0x71 then some 1
  else if op = 0x79 then some 8
  else none

/-- The effective address of a store: base register `Dst` plus the
instruction offset, as the wrapping Go `int64` sum. -/
def effStoreAddr (s : State) (i : Instruction) : Int :=
  wrap64 (s.Regs.getD i.Dst 0 + i.Offset)

/-- The effective address of a register load: base register `Src` plus the
instruction offset, as the wrapping Go `int64` sum. -/
def effLoadAddr (s : State) (i : Instruction) : Int :=
  wrap64 (s.Regs.getD i.Src 0 + i.Offset)

end EBPF

namespace EBPF

/-- Reading back an index just written. -/
theorem getD_set_self (l : List Nat) (i x : Nat) (h : i < l.length) :
    (l.set i x).getD i 0 = x := by
  simp [List.getD_eq_getElem?_getD, List.getElem?_set_self h]

/-- Writing one index leaves reads at any other index unchanged. -/
theorem getD_set_ne (l : List Nat) (i j x : Nat) (h : i ≠ j) :
    (l.set i x).getD j 0 = l.getD j 0 := by
  simp [List.getD_eq_getElem?_getD, List.getElem?_set_ne h]

/-- For nonnegative arguments, the `int64` wrap never increases the value:
this is what makes the bounds guard sound below `2^63` and defeated above. -/
theorem wrap64_le_self (x : Int) (h : 0 ≤ x) : wrap64 x ≤ x := by
  simp only [wrap64, wrapS]
  norm_num
  omega

/-- Claim C9: for every in-bounds address and 32-bit value, a store-word
followed by a load-word at the same address succeeds and returns the same
32-bit value: the load result is the zero-extension `v mod 2^32`, whose
signed 32-bit reading is `v` again.  The load helper is a pure function of
the memory (it returns only the value), so it changes no machine state. -/
theorem store_load_word_roundtrip (m : List Nat) (a v : Int)
    (ha : 0 ≤ a) (hlen : a + 4 ≤ (m.length : Int))
    (hv1 : -2147483648 ≤ v) (hv2 : v < 2147483648) :
    ∃ mm, storeWordMem m a v = .ok mm ∧ mm.length = m.length ∧
      loadWordMem mm a = some (v % 4294967296) ∧
      wrapS 32 (v % 4294967296) = v := by
  obtain ⟨n, rfl⟩ := Int.eq_ofNat_of_zero_le ha
  have hn4 : n + 4 ≤ m.length := by exact_mod_cast hlen
  have hw4 : wrap64 (((n : Nat) : Int) + ((4 : Nat) : Int)) ≤
      ((n : Nat) : Int) + ((4 : Nat) : Int) := wrap64_le_self _ (by omega)
  have hguard : ¬ memGuardFails m ((n : Nat) : Int) 4 := by
    unfold memGuardFails
    push_neg
    exact ⟨by omega, by omega⟩
  have hmod0 : 0 ≤ v % 4294967296 := Int.emod_nonneg v (by norm_num)
  have hmodlt : v % 4294967296 < 4294967296 :=
    Int.emod_lt_of_pos v (by norm_num)
  have huv : ((toU 32 v : Nat) : Int) = v % 4294967296 := by
    have h32 : (2 : Int) ^ 32 = 4294967296 := by norm_num
    simp only [toU, h32]
    exact Int.toNat_of_nonneg hmod0
  have hult : toU 32 v < 4294967296 := by omega
  have e0 : ((((m.set n (toU 32 v % 256)).set (n + 1) (toU 32 v / 256 % 256)).set
      (n + 2) (toU 32 v / 65536 % 256)).set (n + 3) (toU 32 v / 16777216 % 256)).getD n 0 =
      toU 32 v % 256 := by
    rw [getD_set_ne _ (n + 3) n _ (by omega), getD_set_ne _ (n + 2) n _ (by omega),
      getD_set_ne _ (n + 1) n _ (by omega), getD_set_self m n _ (by omega)]
  have e1 : ((((m.set n (toU 32 v % 256)).set (n + 1) (toU 32 v / 256 % 256)).set
      (n + 2) (toU 32 v / 65536 % 256)).set (n + 3) (toU 32 v / 16777216 % 256)).getD (n + 1) 0 =
      toU 32 v / 256 % 256 := by
    rw [getD_set_ne _ (n + 3) (n + 1) _ (by omega), getD_set_ne _ (n + 2) (n + 1) _ (by omega),
      getD_set_self (m.set n (toU 32 v % 256)) (n + 1) _
        (by simp only [List.length_set]; omega)]
  have e2 : ((((m.set n (toU 32 v % 256)).set (n + 1) (toU 32 v / 256 % 256)).set
      (n + 2) (toU 32 v / 65536 % 256)).set (n + 3) (toU 32 v / 16777216 % 256)).getD (n + 2) 0 =
      toU 32 v / 65536 % 256 := by
    rw [getD_set_ne _ (n + 3) (n + 2) _ (by omega),
      getD_set_self ((m.set n (toU 32 v % 256)).set (n + 1) (toU 32 v / 256 % 256)) (n + 2) _
        (by simp only [List.length_set]; omega)]
  have e3 : ((((m.set n (toU 32 v % 256)).set (n + 1) (toU 32 v / 256 % 256)).set
      (n + 2) (toU 32 v / 65536 % 256)).set (n + 3) (toU 32 v / 16777216 % 256)).getD (n + 3) 0 =
      toU 32 v / 16777216 % 256 := by
    rw [getD_set_self (((m.set n (toU 32 v % 256)).set (n + 1) (toU 32 v / 256 % 256)).set
        (n + 2) (toU 32 v / 65536 % 256)) (n + 3) _
        (by simp only [List.length_set]; omega)]
  have ht0 : (((n : Nat) : Int)).toNat = n := by omega
  have ht1 : (((n : Nat) : Int) + 1).toNat = n + 1 := by omega
  have ht2 : (((n : Nat) : Int) + 2).toNat = n + 2 := by omega
  have ht3 : (((n : Nat) : Int) + 3).toNat = n + 3 := by omega
  have hload : loadWordMem ((((m.set n (toU 32 v % 256)).set
      (n + 1) (toU 32 v / 256 % 256)).set
      (n + 2) (toU 32 v / 65536 % 256)).set
      (n + 3) (toU 32 v / 16777216 % 256)) ((n : Nat) : Int) =
      some (v % 4294967296) := by
    have hg1 : ¬ memGuardFails ((((m.set n (toU 32 v % 256)).set
        (n + 1) (toU 32 v / 256 % 256)).set
        (n + 2) (toU 32 v / 65536 % 256)).set
        (n + 3) (toU 32 v / 16777216 % 256)) ((n : Nat) : Int) 4 := by
      unfold memGuardFails
      push_neg
      simp only [List.length_set]
      exact ⟨by omega, by omega⟩
    rw [loadWordMem, if_neg hg1, if_neg (by simp only [List.length_set]; omega)]
    simp only [getByte, ht0, ht1, ht2, ht3, e0, e1, e2, e3]
    rw [← huv]
    exact congrArg (fun x : Nat => (some ((x : Nat) : Int) : Option Int)) (by omega :
      toU 32 v % 256 + 256 * (toU 32 v / 256 % 256) + 65536 * (toU 32 v / 65536 % 256) +
        16777216 * (toU 32 v / 16777216 % 256) = toU 32 v)
  refine ⟨(((m.set n (toU 32 v % 256)).set (n + 1) (toU 32 v / 256 % 256)).set
      (n + 2) (toU 32 v / 65536 % 256)).set (n + 3) (toU 32 v / 16777216 % 256),
    ?_, ?_, ?_, ?_⟩
  · rw [storeWordMem, if_neg hguard, if_neg (by omega)]
    simp
  · simp
  · exact hload
  · simp only [wrapS]
    norm_num
    omega

/-- On values below `2^8`, the two's-complement wrap agrees with the spec's
signed 8-bit reading. -/
theorem wrapS8_sint8 (n : Nat) (h : n < 256) : wrapS 8 ((n : Nat) : Int) = sint8 n := by
  simp only [wrapS, sint8]
  norm_num
  split_ifs <;> omega

/-- On values below `2^16`, the two's-complement wrap agrees with the spec's
signed 16-bit little-endian reading. -/
theorem wrapS16_sint16 (n : Nat) (h : n < 65536) : wrapS 16 ((n : Nat) : Int) = sint16 n := by
  simp only [wrapS, sint16]
  norm_num
  split_ifs <;> omega

/-- On values below `2^32`, the two's-complement wrap agrees with the spec's
signed 32-bit little-endian reading. -/
theorem wrapS32_sint32 (n : Nat) (h : n < 4294967296) :
    wrapS 32 ((n : Nat) : Int) = sint32 n := by
  simp only [wrapS, sint32]
  norm_num
  split_ifs <;> omega

/-- An in-bounds default read of a list of bytes is a byte. -/
theorem getD_lt_of_forall (m : List Nat) (k : Nat) (hm : ∀ x ∈ m, x < 256)
    (h : k < m.length) : m.getD k 0 < 256 := by
  rw [List.getD_eq_getElem?_getD, List.getElem?_eq_getElem h]
  exact hm _ (List.getElem_mem h)

/-- Claim C8: half-word and byte loads sign-extend (the result is the
signed 16-bit, resp. 8-bit, reading of the loaded bytes, in signed range),
while word loads zero-extend (the result is the unsigned 32-bit value,
in `[0, 2^32)`), for every in-bounds address and byte-valued memory. -/
theorem load_sign_and_zero_extension :
    (∀ (m : List Nat) (a : Int), (∀ x ∈ m, x < 256) → 0 ≤ a →
        a + 2 ≤ (m.length : Int) →
        loadHalfWordMem m a = some (sint16 (getByte m a + 256 * getByte m (a + 1))) ∧
        -32768 ≤ sint16 (getByte m a + 256 * getByte m (a + 1)) ∧
        sint16 (getByte m a + 256 * getByte m (a + 1)) < 32768) ∧
    (∀ (m : List Nat) (a : Int), (∀ x ∈ m, x < 256) → 0 ≤ a →
        a + 1 ≤ (m.length : Int) →
        loadByteMem m a = some (sint8 (getByte m a)) ∧
        -128 ≤ sint8 (getByte m a) ∧ sint8 (getByte m a) < 128) ∧
    (∀ (m : List Nat) (a : Int), (∀ x ∈ m, x < 256) → 0 ≤ a →
        a + 4 ≤ (m.length : Int) →
        loadWordMem m a = some ((getByte m a + 256 * getByte m (a + 1) +
          65536 * getByte m (a + 2) + 16777216 * getByte m (a + 3) : Nat) : Int) ∧
        (0 : Int) ≤ ((getByte m a + 256 * getByte m (a + 1) +
          65536 * getByte m (a + 2) + 16777216 * getByte m (a + 3) : Nat) : Int) ∧
        ((getByte m a + 256 * getByte m (a + 1) +
          65536 * getByte m (a + 2) + 16777216 * getByte m (a + 3) : Nat) : Int) <
          4294967296) := by
  refine ⟨?_, ?_, ?_⟩
  · intro m a hm h0 hlen
    obtain ⟨n, rfl⟩ := Int.eq_ofNat_of_zero_le h0
    have hn : n + 2 ≤ m.length := by exact_mod_cast hlen
    have hw2 : wrap64 (((n : Nat) : Int) + ((2 : Nat) : Int)) ≤
        ((n : Nat) : Int) + ((2 : Nat) : Int) := wrap64_le_self _ (by omega)
    have hguard : ¬ memGuardFails m ((n : Nat) : Int) 2 := by
      unfold memGuardFails
      push_neg
      exact ⟨by omega, by omega⟩
    have ht0 : (((n : Nat) : Int)).toNat = n := by omega
    have ht1 : (((n : Nat) : Int) + 1).toNat = n + 1 := by omega
    have hb0 : m.getD n 0 < 256 := getD_lt_of_forall m n hm (by omega)
    have hb1 : m.getD (n + 1) 0 < 256 := getD_lt_of_forall m (n + 1) hm (by omega)
    have hval : loadHalfWordMem m ((n : Nat) : Int) =
        some (wrapS 16 (((m.getD n 0 + 256 * m.getD (n + 1) 0 : Nat) : Int))) := by
      rw [loadHalfWordMem, if_neg hguard, if_neg (by omega)]
      simp only [getByte, ht0, ht1]
      push_cast
      ring_nf
    rw [hval, wrapS16_sint16 _ (by omega)]
    simp only [getByte, ht0, ht1]
    refine ⟨trivial, ?_, ?_⟩ <;> (simp only [sint16]; split_ifs <;> omega)
  · intro m a hm h0 hlen
    obtain ⟨n, rfl⟩ := Int.eq_ofNat_of_zero_le h0
    have hn : n + 1 ≤ m.length := by exact_mod_cast hlen
    have hw1 : wrap64 (((n : Nat) : Int) + ((1 : Nat) : Int)) ≤
        ((n : Nat) : Int) + ((1 : Nat) : Int) := wrap64_le_self _ (by omega)
    have hguard : ¬ memGuardFails m ((n : Nat) : Int) 1 := by
      unfold memGuardFails
      push_neg
      exact ⟨by omega, by omega⟩
    have ht0 : (((n : Nat) : Int)).toNat = n := by omega
    have hb0 : m.getD n 0 < 256 := getD_lt_of_forall m n hm (by omega)
    have hval : loadByteMem m ((n : Nat) : Int) =
        some (wrapS 8 (((m.getD n 0 : Nat) : Int))) := by
      rw [loadByteMem, if_neg hguard, if_neg (by omega)]
      simp only [getByte, ht0]
    rw [hval, wrapS8_sint8 _ (by omega)]
    simp only [getByte, ht0]
    refine ⟨trivial, ?_, ?_⟩ <;> (simp only [sint8]; split_ifs <;> omega)
  · intro m a hm h0 hlen
    obtain ⟨n, rfl⟩ := Int.eq_ofNat_of_zero_le h0
    have hn : n + 4 ≤ m.length := by exact_mod_cast hlen
    have hw4 : wrap64 (((n : Nat) : Int) + ((4 : Nat) : Int)) ≤
        ((n : Nat) : Int) + ((4 : Nat) : Int) := wrap64_le_self _ (by omega)
    have hguard : ¬ memGuardFails m ((n : Nat) : Int) 4 := by
      unfold memGuardFails
      push_neg
      exact ⟨by omega, by omega⟩
    have ht0 : (((n : Nat) : Int)).toNat = n := by omega
    have ht1 : (((n : Nat) : Int) + 1).toNat = n + 1 := by omega
    have ht2 : (((n : Nat) : Int) + 2).toNat = n + 2 := by omega
    have ht3 : (((n : Nat) : Int) + 3).toNat = n + 3 := by omega
    have hb0 : m.getD n 0 < 256 := getD_lt_of_forall m n hm (by omega)
    have hb1 : m.getD (n + 1) 0 < 256 := getD_lt_of_forall m (n + 1) hm (by omega)
    have hb2 : m.getD (n + 2) 0 < 256 := getD_lt_of_forall m (n + 2) hm (by omega)
    have hb3 : m.getD (n + 3) 0 < 256 := getD_lt_of_forall m (n + 3) hm (by omega)
    have hval : loadWordMem m ((n : Nat) : Int) =
        some ((m.getD n 0 + 256 * m.getD (n + 1) 0 + 65536 * m.getD (n + 2) 0 +
          16777216 * m.getD (n + 3) 0 : Nat) : Int) := by
      rw [loadWordMem, if_neg hguard, if_neg (by omega)]
      simp only [getByte, ht0, ht1, ht2, ht3]
    rw [hval]
    simp only [getByte, ht0, ht1, ht2, ht3]
    refine ⟨trivial, by positivity, by push_cast; omega⟩

/-- Default reads skip the first eight entries of a list. -/
theorem getD_cons8 (a0 a1 a2 a3 a4 a5 a6 a7 : Nat) (l : List Nat) (m : Nat) :
    (a0 :: a1 :: a2 :: a3 :: a4 :: a5 :: a6 :: a7 :: l).getD (m + 8) 0 = l.getD m 0 := rfl

/-- The spec-side record of group `k + 1` ignores the first 8-byte chunk. -/
theorem specDecode_cons8 (a0 a1 a2 a3 a4 a5 a6 a7 : Nat) (l : List Nat) (k : Nat) :
    specDecode (a0 :: a1 :: a2 :: a3 :: a4 :: a5 :: a6 :: a7 :: l) (k + 1) =
      specDecode l k := by
  unfold specDecode
  have h0 : 8 * (k + 1) = 8 * k + 8 := by ring
  have h1 : 8 * k + 8 + 1 = 8 * k + 1 + 8 := by ring
  have h2 : 8 * k + 8 + 2 = 8 * k + 2 + 8 := by ring
  have h3 : 8 * k + 8 + 3 = 8 * k + 3 + 8 := by ring
  have h4 : 8 * k + 8 + 4 = 8 * k + 4 + 8 := by ring
  have h5 : 8 * k + 8 + 5 = 8 * k + 5 + 8 := by ring
  have h6 : 8 * k + 8 + 6 = 8 * k + 6 + 8 := by ring
  have h7 : 8 * k + 8 + 7 = 8 * k + 7 + 8 := by ring
  rw [h0, h1, h2, h3, h4, h5, h6, h7]
  simp only [getD_cons8]

/-- On byte-valued input, the decoded record of the source (`mkInsn`) is
exactly the record the spec describes for the first group. -/
theorem mkInsn_eq_specDecode (b0 b1 b2 b3 b4 b5 b6 b7 : Nat) (l : List Nat)
    (h1 : b1 < 256) (h2 : b2 < 256) (h3 : b3 < 256) (h4 : b4 < 256)
    (h5 : b5 < 256) (h6 : b6 < 256) (h7 : b7 < 256) :
    mkInsn b0 b1 b2 b3 b4 b5 b6 b7 =
      specDecode (b0 :: b1 :: b2 :: b3 :: b4 :: b5 :: b6 :: b7 :: l) 0 := by
  unfold mkInsn specDecode
  simp only [Instruction.mk.injEq]
  refine ⟨rfl, rfl, ?_, ?_, ?_⟩
  · show b1 / 16 % 16 = (b0 :: b1 :: b2 :: b3 :: b4 :: b5 :: b6 :: b7 :: l).getD (8 * 0 + 1) 0 / 16
    show b1 / 16 % 16 = b1 / 16
    omega
  · show wrapS 16 ((b2 : Int) + 256 * (b3 : Int)) =
      sint16 ((b0 :: b1 :: b2 :: b3 :: b4 :: b5 :: b6 :: b7 :: l).getD (8 * 0 + 2) 0 +
        256 * (b0 :: b1 :: b2 :: b3 :: b4 :: b5 :: b6 :: b7 :: l).getD (8 * 0 + 3) 0)
    show wrapS 16 ((b2 : Int) + 256 * (b3 : Int)) = sint16 (b2 + 256 * b3)
    rw [← wrapS16_sint16 (b2 + 256 * b3) (by omega)]
    push_cast
    ring_nf
  · show wrapS 32 ((b4 : Int) + 256 * (b5 : Int) + 65536 * (b6 : Int) +
        16777216 * (b7 : Int)) = sint32 (b4 + 256 * b5 + 65536 * b6 + 16777216 * b7)
    rw [← wrapS32_sint32 (b4 + 256 * b5 + 65536 * b6 + 16777216 * b7) (by omega)]
    push_cast
    ring_nf

/-- Claim C7: on every byte sequence whose length is a multiple of 8 (and
whose entries are bytes), the decoder succeeds and produces one record per
8-byte group, in source order, and each record reads its fields exactly as
the spec describes: byte 0 the opcode, low/high nibble of byte 1 the
dst/src, bytes 2-3 the signed 16-bit little-endian offset, bytes 4-7 the
signed 32-bit little-endian immediate. -/
theorem decode_layout : ∀ (b : List Nat), (∀ x ∈ b, x < 256) →
    b.length % 8 = 0 →
    ∃ prog, decodeChunks b = some prog ∧ prog.length = b.length / 8 ∧
      ∀ k, k < prog.length → prog[k]? = some (specDecode b k) := by
  intro b
  induction b using decodeChunks.induct with
  | case1 =>
    intro _ _
    exact ⟨[], rfl, by simp, by intro k hk; simp at hk⟩
  | case2 b0 b1 b2 b3 b4 b5 b6 b7 rest hnone ih =>
    intro hm h8
    have hmr : ∀ x ∈ rest, x < 256 := fun x hx => hm x (by simp [hx])
    have h8r : rest.length % 8 = 0 := by
      simp only [List.length_cons] at h8
      omega
    obtain ⟨p, hp, -, -⟩ := ih hmr h8r
    rw [hnone] at hp
    cases hp
  | case3 b0 b1 b2 b3 b4 b5 b6 b7 rest is hsome ih =>
    intro hm h8
    have hmr : ∀ x ∈ rest, x < 256 := fun x hx => hm x (by simp [hx])
    have h8r : rest.length % 8 = 0 := by
      simp only [List.length_cons] at h8
      omega
    obtain ⟨p, hp, hplen, hidx⟩ := ih hmr h8r
    refine ⟨mkInsn b0 b1 b2 b3 b4 b5 b6 b7 :: p, ?_, ?_, ?_⟩
    · simp only [decodeChunks, hp]
    · simp only [List.length_cons]
      omega
    · intro k hk
      match k with
      | 0 =>
        simp only [List.getElem?_cons_zero, Option.some.injEq]
        exact mkInsn_eq_specDecode b0 b1 b2 b3 b4 b5 b6 b7 rest
          (hm b1 (by simp)) (hm b2 (by simp)) (hm b3 (by simp)) (hm b4 (by simp))
          (hm b5 (by simp)) (hm b6 (by simp)) (hm b7 (by simp))
      | k + 1 =>
        simp only [List.getElem?_cons_succ, specDecode_cons8]
        exact hidx k (by simp only [List.length_cons] at hk; omega)
  | case4 t hne hcons =>
    intro hm h8
    rcases t with - | ⟨x0, t⟩
    · exact absurd rfl hne
    rcases t with - | ⟨x1, t⟩
    · simp at h8
    rcases t with - | ⟨x2, t⟩
    · simp at h8
    rcases t with - | ⟨x3, t⟩
    · simp at h8
    rcases t with - | ⟨x4, t⟩
    · simp at h8
    rcases t with - | ⟨x5, t⟩
    · simp at h8
    rcases t with - | ⟨x6, t⟩
    · simp at h8
    rcases t with - | ⟨x7, t⟩
    · simp at h8
    exact absurd rfl (hcons x0 x1 x2 x3 x4 x5 x6 x7 t)

/-- An in-range register read succeeds. -/
theorem readReg_isSome {s : State} {j : Nat} (h : j < s.Regs.length) :
    (readReg s j).isSome := by
  rw [readReg, List.getElem?_eq_getElem h]
  rfl

/-- An in-range register write succeeds. -/
theorem writeReg_isSome {s : State} {j : Nat} (h : j < s.Regs.length) (v : Int) :
    (writeReg s j v).isSome := by
  rw [writeReg, if_pos h]
  rfl

/-- A successful register access never raises the index-out-of-range panic
by itself. -/
theorem bindR_ne_oob {α : Type} {o : Option α} {f : α → Outcome} (ho : o.isSome)
    (hf : ∀ a, f a ≠ .panic .indexOutOfRange) :
    bindR o f ≠ .panic .indexOutOfRange := by
  cases o with
  | none => simp at ho
  | some a => exact hf a

/-- A memory read never raises the register index-out-of-range panic:
its failure is the distinct memory-access panic. -/
theorem bindM_ne_reg_oob {α : Type} {o : Option α} {f : α → Outcome}
    (hf : ∀ a, f a ≠ .panic .indexOutOfRange) :
    bindM o f ≠ .panic .indexOutOfRange := by
  cases o with
  | none => exact fun hcon => Outcome.noConfusion hcon fun hk => PanicKind.noConfusion hk
  | some a => exact hf a

/-- Consuming a store helper's result never raises the register
index-out-of-range panic: the helper's own panic is the distinct
memory-access panic. -/
theorem applyStore_ne_reg_oob (s : State) (r : StoreResult) :
    applyStore s r ≠ .panic .indexOutOfRange := by
  cases r with
  | fault => exact fun hcon => Outcome.noConfusion hcon
  | panic => exact fun hcon => Outcome.noConfusion hcon fun hk => PanicKind.noConfusion hk
  | ok m => exact fun hcon => Outcome.noConfusion hcon

/-- Claim C2 (amended): when the code's own (wrapping) bounds check fires —
the effective address is negative, or the `int64` sum `address + width`
exceeds the memory capacity without overflowing — no fault is surfaced:
the store helper's error is discarded by `Execute`, which reports plain
success with the whole state (in particular the memory buffer) unchanged,
and an out-of-bounds load likewise succeeds, depositing 0 in the
destination register.  In the remaining out-of-bounds corner, where
`address + width` overflows `int64` so the check passes although the real
comparison fails, `Execute` instead aborts with the memory-access runtime
panic — still not a surfaced `MemoryAccessOutOfBounds` fault, and the
memory is still unchanged. -/
theorem store_oob_silent_load_oob_zero :
    (∀ (i : Instruction) (s : State) (w : Nat), storeWidth i.Opcode = some w →
        i.Dst < s.Regs.length →
        ((i.Opcode = 0x63 ∨ i.Opcode = 0x6b ∨ i.Opcode = 0x73 ∨ i.Opcode = 0x7b) →
          i.Src < s.Regs.length) →
        memGuardFails s.Memory (effStoreAddr s i) w →
        Execute i s = .ok s) ∧
    (∀ (i : Instruction) (s : State) (w : Nat), loadWidthOp i.Opcode = some w →
        i.Dst < s.Regs.length → i.Src < s.Regs.length →
        memGuardFails s.Memory (effLoadAddr s i) w →
        Execute i s = .ok { s with Regs := s.Regs.set i.Dst 0 }) ∧
    (∀ (i : Instruction) (s : State) (w : Nat), storeWidth i.Opcode = some w →
        i.Dst < s.Regs.length →
        ((i.Opcode = 0x63 ∨ i.Opcode = 0x6b ∨ i.Opcode = 0x73 ∨ i.Opcode = 0x7b) →
          i.Src < s.Regs.length) →
        ¬ memGuardFails s.Memory (effStoreAddr s i) w →
        effStoreAddr s i + (w : Int) > (s.Memory.length : Int) →
        Execute i s = .panic .memAccessOutOfRange) ∧
    (∀ (i : Instruction) (s : State) (w : Nat), loadWidthOp i.Opcode = some w →
        i.Dst < s.Regs.length → i.Src < s.Regs.length →
        ¬ memGuardFails s.Memory (effLoadAddr s i) w →
        effLoadAddr s i + (w : Int) > (s.Memory.length : Int) →
        Execute i s = .panic .memAccessOutOfRange) := by
  refine ⟨?_, ?_, ?_, ?_⟩
  · intro i s w hw hd hsx hoob
    unfold effStoreAddr at hoob
    rw [List.getD_eq_getElem?_getD] at hoob
    have hread : readReg s i.Dst = some (s.Regs.getD i.Dst 0) := by
      rw [readReg, List.getElem?_eq_getElem hd, List.getD_eq_getElem _ _ hd]
    unfold storeWidth at hw
    split_ifs at hw with c1 c2 c3 c4
    · injection hw with hww
      subst hww
      have hmem : ∀ v, storeWordMem s.Memory
          (wrap64 (s.Regs[i.Dst]?.getD 0 + i.Offset)) v = .fault := by
        intro v
        rw [storeWordMem, if_pos hoob]
      rcases c1 with he | he
      · simp [Execute, he, bindR, hread, hmem, applyStore]
      · have hs : i.Src < s.Regs.length := hsx (by simp [he])
        have hread2 : readReg s i.Src = some (s.Regs.getD i.Src 0) := by
          rw [readReg, List.getElem?_eq_getElem hs, List.getD_eq_getElem _ _ hs]
        simp [Execute, he, bindR, hread, hread2, hmem, applyStore]
    · injection hw with hww
      subst hww
      have hmem : ∀ v, storeHalfWordMem s.Memory
          (wrap64 (s.Regs[i.Dst]?.getD 0 + i.Offset)) v = .fault := by
        intro v
        rw [storeHalfWordMem, if_pos hoob]
      rcases c2 with he | he
      · simp [Execute, he, bindR, hread, hmem, applyStore]
      · have hs : i.Src < s.Regs.length := hsx (by simp [he])
        have hread2 : readReg s i.Src = some (s.Regs.getD i.Src 0) := by
          rw [readReg, List.getElem?_eq_getElem hs, List.getD_eq_getElem _ _ hs]
        simp [Execute, he, bindR, hread, hread2, hmem, applyStore]
    · injection hw with hww
      subst hww
      have hmem : ∀ v, storeByteMem s.Memory
          (wrap64 (s.Regs[i.Dst]?.getD 0 + i.Offset)) v = .fault := by
        intro v
        rw [storeByteMem, if_pos hoob]
      rcases c3 with he | he
      · simp [Execute, he, bindR, hread, hmem, applyStore]
      · have hs : i.Src < s.Regs.length := hsx (by simp [he])
        have hread2 : readReg s i.Src = some (s.Regs.getD i.Src 0) := by
          rw [readReg, List.getElem?_eq_getElem hs, List.getD_eq_getElem _ _ hs]
        simp [Execute, he, bindR, hread, hread2, hmem, applyStore]
    · injection hw with hww
      subst hww
      have hmem : ∀ v, storeDoubleWordMem s.Memory
          (wrap64 (s.Regs[i.Dst]?.getD 0 + i.Offset)) v = .fault := by
        intro v
        rw [storeDoubleWordMem, if_pos hoob]
      rcases c4 with he | he
      · simp [Execute, he, bindR, hread, hmem, applyStore]
      · have hs : i.Src < s.Regs.length := hsx (by simp [he])
        have hread2 : readReg s i.Src = some (s.Regs.getD i.Src 0) := by
          rw [readReg, List.getElem?_eq_getElem hs, List.getD_eq_getElem _ _ hs]
        simp [Execute, he, bindR, hread, hread2, hmem, applyStore]
  · intro i s w hw hd hs hoob
    unfold effLoadAddr at hoob
    rw [List.getD_eq_getElem?_getD] at hoob
    have hz : wrap64 0 = 0 := by decide
    have hread2 : readReg s i.Src = some (s.Regs.getD i.Src 0) := by
      rw [readReg, List.getElem?_eq_getElem hs, List.getD_eq_getElem _ _ hs]
    unfold loadWidthOp at hw
    split_ifs at hw with c1 c2 c3 c4
    · injection hw with hww
      subst hww
      have h0 : loadWordMem s.Memory
          (wrap64 (s.Regs[i.Src]?.getD 0 + i.Offset)) = some 0 := by
        rw [loadWordMem, if_pos hoob]
      simp [Execute, c1, bindR, bindM, hread2, h0, writeReg, hd, hz]
    · injection hw with hww
      subst hww
      have h0 : loadHalfWordMem s.Memory
          (wrap64 (s.Regs[i.Src]?.getD 0 + i.Offset)) = some 0 := by
        rw [loadHalfWordMem, if_pos hoob]
      simp [Execute, c2, bindR, bindM, hread2, h0, writeReg, hd, hz]
    · injection hw with hww
      subst hww
      have h0 : loadByteMem s.Memory
          (wrap64 (s.Regs[i.Src]?.getD 0 + i.Offset)) = some 0 := by
        rw [loadByteMem, if_pos hoob]
      simp [Execute, c3, bindR, bindM, hread2, h0, writeReg, hd, hz]
    · injection hw with hww
      subst hww
      have h0 : loadDoubleWordMem s.Memory
          (wrap64 (s.Regs[i.Src]?.getD 0 + i.Offset)) = some 0 := by
        rw [loadDoubleWordMem, if_pos hoob]
      simp [Execute, c4, bindR, bindM, hread2, h0, writeReg, hd, hz]
  · intro i s w hw hd hsx hnoob hgt
    unfold effStoreAddr at hnoob hgt
    rw [List.getD_eq_getElem?_getD] at hnoob hgt
    have hread : readReg s i.Dst = some (s.Regs.getD i.Dst 0) := by
      rw [readReg, List.getElem?_eq_getElem hd, List.getD_eq_getElem _ _ hd]
    unfold storeWidth at hw
    split_ifs at hw with c1 c2 c3 c4
    · injection hw with hww
      subst hww
      have hmem : ∀ v, storeWordMem s.Memory
          (wrap64 (s.Regs[i.Dst]?.getD 0 + i.Offset)) v = .panic := by
        intro v
        rw [storeWordMem, if_neg hnoob, if_pos (by exact_mod_cast hgt)]
      rcases c1 with he | he
      · simp [Execute, he, bindR, hread, hmem, applyStore]
      · have hs : i.Src < s.Regs.length := hsx (by simp [he])
        have hread2 : readReg s i.Src = some (s.Regs.getD i.Src 0) := by
          rw [readReg, List.getElem?_eq_getElem hs, List.getD_eq_getElem _ _ hs]
        simp [Execute, he, bindR, hread, hread2, hmem, applyStore]
    · injection hw with hww
      subst hww
      have hmem : ∀ v, storeHalfWordMem s.Memory
          (wrap64 (s.Regs[i.Dst]?.getD 0 + i.Offset)) v = .panic := by
        intro v
        rw [storeHalfWordMem, if_neg hnoob, if_pos (by exact_mod_cast hgt)]
      rcases c2 with he | he
      · simp [Execute, he, bindR, hread, hmem, applyStore]
      · have hs : i.Src < s.Regs.length := hsx (by simp [he])
        have hread2 : readReg s i.Src = some (s.Regs.getD i.Src 0) := by
          rw [readReg, List.getElem?_eq_getElem hs, List.getD_eq_getElem _ _ hs]
        simp [Execute, he, bindR, hread, hread2, hmem, applyStore]
    · injection hw with hww
      subst hww
      have hmem : ∀ v, storeByteMem s.Memory
          (wrap64 (s.Regs[i.Dst]?.getD 0 + i.Offset)) v = .panic := by
        intro v
        rw [storeByteMem, if_neg hnoob, if_pos (by exact_mod_cast hgt)]
      rcases c3 with he | he
      · simp [Execute, he, bindR, hread, hmem, applyStore]
      · have hs : i.Src < s.Regs.length := hsx (by simp [he])
        have hread2 : readReg s i.Src = some (s.Regs.getD i.Src 0) := by
          rw [readReg, List.getElem?_eq_getElem hs, List.getD_eq_getElem _ _ hs]
        simp [Execute, he, bindR, hread, hread2, hmem, applyStore]
    · injection hw with hww
      subst hww
      have hmem : ∀ v, storeDoubleWordMem s.Memory
          (wrap64 (s.Regs[i.Dst]?.getD 0 + i.Offset)) v = .panic := by
        intro v
        rw [storeDoubleWordMem, if_neg hnoob, if_pos (by exact_mod_cast hgt)]
      rcases c4 with he | he
      · simp [Execute, he, bindR, hread, hmem, applyStore]
      · have hs : i.Src < s.Regs.length := hsx (by simp [he])
        have hread2 : readReg s i.Src = some (s.Regs.getD i.Src 0) := by
          rw [readReg, List.getElem?_eq_getElem hs, List.getD_eq_getElem _ _ hs]
        simp [Execute, he, bindR, hread, hread2, hmem, applyStore]
  · intro i s w hw hd hs hnoob hgt
    unfold effLoadAddr at hnoob hgt
    rw [List.getD_eq_getElem?_getD] at hnoob hgt
    have hread2 : readReg s i.Src = some (s.Regs.getD i.Src 0) := by
      rw [readReg, List.getElem?_eq_getElem hs, List.getD_eq_getElem _ _ hs]
    unfold loadWidthOp at hw
    split_ifs at hw with c1 c2 c3 c4
    · injection hw with hww
      subst hww
      have h0 : loadWordMem s.Memory
          (wrap64 (s.Regs[i.Src]?.getD 0 + i.Offset)) = none := by
        rw [loadWordMem, if_neg hnoob, if_pos (by exact_mod_cast hgt)]
      simp [Execute, c1, bindR, bindM, hread2, h0]
    · injection hw with hww
      subst hww
      have h0 : loadHalfWordMem s.Memory
          (wrap64 (s.Regs[i.Src]?.getD 0 + i.Offset)) = none := by
        rw [loadHalfWordMem, if_neg hnoob, if_pos (by exact_mod_cast hgt)]
      simp [Execute, c2, bindR, bindM, hread2, h0]
    · injection hw with hww
      subst hww
      have h0 : loadByteMem s.Memory
          (wrap64 (s.Regs[i.Src]?.getD 0 + i.Offset)) = none := by
        rw [loadByteMem, if_neg hnoob, if_pos (by exact_mod_cast hgt)]
      simp [Execute, c3, bindR, bindM, hread2, h0]
    · injection hw with hww
      subst hww
      have h0 : loadDoubleWordMem s.Memory
          (wrap64 (s.Regs[i.Src]?.getD 0 + i.Offset)) = none := by
        rw [loadDoubleWordMem, if_neg hnoob, if_pos (by exact_mod_cast hgt)]
      simp [Execute, c4, bindR, bindM, hread2, h0]

set_option maxHeartbeats 1000000 in
/-- Claim C10 (amended): the decoder masks `dst` and `src` to 4 bits, so
decoded indices reach at most 15, while the register file has 11 entries;
under the precondition `dst ≤ 10` and `src ≤ 10` (with an 11-entry register
file) every register access is in range, so `Execute` never raises the
register/program index-out-of-range panic (`PanicKind.indexOutOfRange`,
the only producer of which inside `Execute` is register indexing) — though
it is still not total there: division by zero panics, and so does a memory
access whose wrapping bounds check is defeated by `int64` overflow (the
distinct `memAccessOutOfRange` panic) — and the precondition is necessary:
an instruction with `dst = 11` makes `Execute` panic with a register index
out of range. -/
theorem decoded_nibbles_and_register_safety :
    (∀ b0 b1 b2 b3 b4 b5 b6 b7 : Nat,
        (mkInsn b0 b1 b2 b3 b4 b5 b6 b7).Dst ≤ 15 ∧
        (mkInsn b0 b1 b2 b3 b4 b5 b6 b7).Src ≤ 15) ∧
    (∀ (i : Instruction) (s : State), s.Regs.length = 11 → i.Dst ≤ 10 →
        i.Src ≤ 10 → Execute i s ≠ .panic .indexOutOfRange) ∧
    (∃ (i : Instruction) (s : State), s.Regs.length = 11 ∧ i.Dst = 11 ∧
        Execute i s = .panic .indexOutOfRange) := by
  refine ⟨?_, ?_, ?_⟩
  · intro b0 b1 b2 b3 b4 b5 b6 b7
    constructor <;> (simp only [mkInsn]; omega)
  · intro i s hlen hd hs
    have hd2 : i.Dst < s.Regs.length := by omega
    have hs2 : i.Src < s.Regs.length := by omega
    have h8 : (8 : Nat) < s.Regs.length := by omega
    unfold Execute
    by_cases hc0 : i.Opcode = 0x07
    case pos =>
      rw [if_pos hc0]
      exact bindR_ne_oob (readReg_isSome hd2) fun d =>
        bindR_ne_oob (writeReg_isSome hd2 _) fun t hcon => Outcome.noConfusion hcon
    rw [if_neg hc0]
    by_cases hc1 : i.Opcode = 0x0f
    case pos =>
      rw [if_pos hc1]
      exact bindR_ne_oob (readReg_isSome hd2) fun d =>
        bindR_ne_oob (readReg_isSome hs2) fun v =>
        bindR_ne_oob (writeReg_isSome hd2 _) fun t hcon => Outcome.noConfusion hcon
    rw [if_neg hc1]
    by_cases hc2 : i.Opcode = 0x17
    case pos =>
      rw [if_pos hc2]
      exact bindR_ne_oob (readReg_isSome hd2) fun d =>
        bindR_ne_oob (writeReg_isSome hd2 _) fun t hcon => Outcome.noConfusion hcon
    rw [if_neg hc2]
    by_cases hc3 : i.Opcode = 0x1f
    case pos =>
      rw [if_pos hc3]
      exact bindR_ne_oob (readReg_isSome hd2) fun d =>
        bindR_ne_oob (readReg_isSome hs2) fun v =>
        bindR_ne_oob (writeReg_isSome hd2 _) fun t hcon => Outcome.noConfusion hcon
    rw [if_neg hc3]
    by_cases hc4 : i.Opcode = 0x27
    case pos =>
      rw [if_pos hc4]
      exact bindR_ne_oob (readReg_isSome hd2) fun d =>
        bindR_ne_oob (writeReg_isSome hd2 _) fun t hcon => Outcome.noConfusion hcon
    rw [if_neg hc4]
    by_cases hc5 : i.Opcode = 0x2f
    case pos =>
      rw [if_pos hc5]
      exact fun hcon => Outcome.noConfusion hcon
    rw [if_neg hc5]
    by_cases hc6 : i.Opcode = 0x37
    case pos =>
      rw [if_pos hc6]
      refine bindR_ne_oob (readReg_isSome hd2) fun d => ?_
      split
      · exact fun hcon => Outcome.noConfusion hcon fun hk => PanicKind.noConfusion hk
      · exact bindR_ne_oob (writeReg_isSome hd2 _) fun t hcon => Outcome.noConfusion hcon
    rw [if_neg hc6]
    by_cases hc7 : i.Opcode = 0x3f
    case pos =>
      rw [if_pos hc7]
      refine bindR_ne_oob (readReg_isSome hd2) fun d => ?_
      refine bindR_ne_oob (readReg_isSome hs2) fun v => ?_
      split
      · exact fun hcon => Outcome.noConfusion hcon fun hk => PanicKind.noConfusion hk
      · exact bindR_ne_oob (writeReg_isSome hd2 _) fun t hcon => Outcome.noConfusion hcon
    rw [if_neg hc7]
    by_cases hc8 : i.Opcode = 0x47
    case pos =>
      rw [if_pos hc8]
      exact bindR_ne_oob (readReg_isSome hd2) fun d =>
        bindR_ne_oob (writeReg_isSome hd2 _) fun t hcon => Outcome.noConfusion hcon
    rw [if_neg hc8]
    by_cases hc9 : i.Opcode = 0x4f
    case pos =>
      rw [if_pos hc9]
      exact bindR_ne_oob (readReg_isSome hd2) fun d =>
        bindR_ne_oob (readReg_isSome hs2) fun v =>
        bindR_ne_oob (writeReg_isSome hd2 _) fun t hcon => Outcome.noConfusion hcon
    rw [if_neg hc9]
    by_cases hc10 : i.Opcode = 0x57
    case pos =>
      rw [if_pos hc10]
      exact bindR_ne_oob (readReg_isSome hd2) fun d =>
        bindR_ne_oob (writeReg_isSome hd2 _) fun t hcon => Outcome.noConfusion hcon
    rw [if_neg hc10]
    by_cases hc11 : i.Opcode = 0x5f
    case pos =>
      rw [if_pos hc11]
      exact bindR_ne_oob (readReg_isSome hd2) fun d =>
        bindR_ne_oob (readReg_isSome hs2) fun v =>
        bindR_ne_oob (writeReg_isSome hd2 _) fun t hcon => Outcome.noConfusion hcon
    rw [if_neg hc11]
    by_cases hc12 : i.Opcode = 0x67
    case pos =>
      rw [if_pos hc12]
      exact bindR_ne_oob (readReg_isSome hd2) fun d =>
        bindR_ne_oob (writeReg_isSome hd2 _) fun t hcon => Outcome.noConfusion hcon
    rw [if_neg hc12]
    by_cases hc13 : i.Opcode = 0x6f
    case pos =>
      rw [if_pos hc13]
      exact bindR_ne_oob (readReg_isSome hd2) fun d =>
        bindR_ne_oob (readReg_isSome hs2) fun v =>
        bindR_ne_oob (writeReg_isSome hd2 _) fun t hcon => Outcome.noConfusion hcon
    rw [if_neg hc13]
    by_cases hc14 : i.Opcode = 0x77
    case pos =>
      rw [if_pos hc14]
      exact bindR_ne_oob (readReg_isSome hd2) fun d =>
        bindR_ne_oob (writeReg_isSome hd2 _) fun t hcon => Outcome.noConfusion hcon
    rw [if_neg hc14]
    by_cases hc15 : i.Opcode = 0x7f
    case pos =>
      rw [if_pos hc15]
      exact bindR_ne_oob (readReg_isSome hd2) fun d =>
        bindR_ne_oob (readReg_isSome hs2) fun v =>
        bindR_ne_oob (writeReg_isSome hd2 _) fun t hcon => Outcome.noConfusion hcon
    rw [if_neg hc15]
    by_cases hc16 : i.Opcode = 0x87
    case pos =>
      rw [if_pos hc16]
      exact bindR_ne_oob (readReg_isSome hd2) fun d =>
        bindR_ne_oob (writeReg_isSome hd2 _) fun t hcon => Outcome.noConfusion hcon
    rw [if_neg hc16]
    by_cases hc17 : i.Opcode = 0x97
    case pos =>
      rw [if_pos hc17]
      refine bindR_ne_oob (readReg_isSome hd2) fun d => ?_
      split
      · exact fun hcon => Outcome.noConfusion hcon fun hk => PanicKind.noConfusion hk
      · exact bindR_ne_oob (writeReg_isSome hd2 _) fun t hcon => Outcome.noConfusion hcon
    rw [if_neg hc17]
    by_cases hc18 : i.Opcode = 0x9f
    case pos =>
      rw [if_pos hc18]
      refine bindR_ne_oob (readReg_isSome hd2) fun d => ?_
      refine bindR_ne_oob (readReg_isSome hs2) fun v => ?_
      split
      · exact fun hcon => Outcome.noConfusion hcon fun hk => PanicKind.noConfusion hk
      · exact bindR_ne_oob (writeReg_isSome hd2 _) fun t hcon => Outcome.noConfusion hcon
    rw [if_neg hc18]
    by_cases hc19 : i.Opcode = 0xa7
    case pos =>
      rw [if_pos hc19]
      exact bindR_ne_oob (readReg_isSome hd2) fun d =>
        bindR_ne_oob (writeReg_isSome hd2 _) fun t hcon => Outcome.noConfusion hcon
    rw [if_neg hc19]
    by_cases hc20 : i.Opcode = 0xaf
    case pos =>
      rw [if_pos hc20]
      exact bindR_ne_oob (readReg_isSome hd2) fun d =>
        bindR_ne_oob (readReg_isSome hs2) fun v =>
        bindR_ne_oob (writeReg_isSome hd2 _) fun t hcon => Outcome.noConfusion hcon
    rw [if_neg hc20]
    by_cases hc21 : i.Opcode = 0xb7
    case pos =>
      rw [if_pos hc21]
      exact bindR_ne_oob (writeReg_isSome hd2 _) fun t hcon => Outcome.noConfusion hcon
    rw [if_neg hc21]
    by_cases hc22 : i.Opcode = 0xbf
    case pos =>
      rw [if_pos hc22]
      exact bindR_ne_oob (readReg_isSome hs2) fun v =>
        bindR_ne_oob (writeReg_isSome hd2 _) fun t hcon => Outcome.noConfusion hcon
    rw [if_neg hc22]
    by_cases hc23 : i.Opcode = 0xc7
    case pos =>
      rw [if_pos hc23]
      exact bindR_ne_oob (readReg_isSome hd2) fun d =>
        bindR_ne_oob (writeReg_isSome hd2 _) fun t hcon => Outcome.noConfusion hcon
    rw [if_neg hc23]
    by_cases hc24 : i.Opcode = 0xcf
    case pos =>
      rw [if_pos hc24]
      exact bindR_ne_oob (readReg_isSome hd2) fun d =>
        bindR_ne_oob (readReg_isSome hs2) fun v =>
        bindR_ne_oob (writeReg_isSome hd2 _) fun t hcon => Outcome.noConfusion hcon
    rw [if_neg hc24]
    by_cases hc25 : i.Opcode = 0x18
    case pos =>
      rw [if_pos hc25]
      exact bindR_ne_oob (writeReg_isSome hd2 _) fun t hcon => Outcome.noConfusion hcon
    rw [if_neg hc25]
    by_cases hc26 : i.Opcode = 0x61
    case pos =>
      rw [if_pos hc26]
      exact bindR_ne_oob (readReg_isSome hs2) fun v =>
        bindM_ne_reg_oob fun r =>
        bindR_ne_oob (writeReg_isSome hd2 _) fun t hcon => Outcome.noConfusion hcon
    rw [if_neg hc26]
    by_cases hc27 : i.Opcode = 0x69
    case pos =>
      rw [if_pos hc27]
      exact bindR_ne_oob (readReg_isSome hs2) fun v =>
        bindM_ne_reg_oob fun r =>
        bindR_ne_oob (writeReg_isSome hd2 _) fun t hcon => Outcome.noConfusion hcon
    rw [if_neg hc27]
    by_cases hc28 : i.Opcode = 0x71
    case pos =>
      rw [if_pos hc28]
      exact bindR_ne_oob (readReg_isSome hs2) fun v =>
        bindM_ne_reg_oob fun r =>
        bindR_ne_oob (writeReg_isSome hd2 _) fun t hcon => Outcome.noConfusion hcon
    rw [if_neg hc28]
    by_cases hc29 : i.Opcode = 0x79
    case pos =>
      rw [if_pos hc29]
      exact bindR_ne_oob (readReg_isSome hs2) fun v =>
        bindM_ne_reg_oob fun r =>
        bindR_ne_oob (writeReg_isSome hd2 _) fun t hcon => Outcome.noConfusion hcon
    rw [if_neg hc29]
    by_cases hc30 : i.Opcode = 0x62
    case pos =>
      rw [if_pos hc30]
      exact bindR_ne_oob (readReg_isSome hd2) fun d => applyStore_ne_reg_oob s _
    rw [if_neg hc30]
    by_cases hc31 : i.Opcode = 0x6a
    case pos =>
      rw [if_pos hc31]
      exact bindR_ne_oob (readReg_isSome hd2) fun d => applyStore_ne_reg_oob s _
    rw [if_neg hc31]
    by_cases hc32 : i.Opcode = 0x72
    case pos =>
      rw [if_pos hc32]
      exact bindR_ne_oob (readReg_isSome hd2) fun d => applyStore_ne_reg_oob s _
    rw [if_neg hc32]
    by_cases hc33 : i.Opcode = 0x7a
    case pos =>
      rw [if_pos hc33]
      exact bindR_ne_oob (readReg_isSome hd2) fun d => applyStore_ne_reg_oob s _
    rw [if_neg hc33]
    by_cases hc34 : i.Opcode = 0x63
    case pos =>
      rw [if_pos hc34]
      exact bindR_ne_oob (readReg_isSome hd2) fun d =>
        bindR_ne_oob (readReg_isSome hs2) fun v => applyStore_ne_reg_oob s _
    rw [if_neg hc34]
    by_cases hc35 : i.Opcode = 0x6b
    case pos =>
      rw [if_pos hc35]
      exact bindR_ne_oob (readReg_isSome hd2) fun d =>
        bindR_ne_oob (readReg_isSome hs2) fun v => applyStore_ne_reg_oob s _
    rw [if_neg hc35]
    by_cases hc36 : i.Opcode = 0x73
    case pos =>
      rw [if_pos hc36]
      exact bindR_ne_oob (readReg_isSome hd2) fun d =>
        bindR_ne_oob (readReg_isSome hs2) fun v => applyStore_ne_reg_oob s _
    rw [if_neg hc36]
    by_cases hc37 : i.Opcode = 0x7b
    case pos =>
      rw [if_pos hc37]
      exact bindR_ne_oob (readReg_isSome hd2) fun d =>
        bindR_ne_oob (readReg_isSome hs2) fun v => applyStore_ne_reg_oob s _
    rw [if_neg hc37]
    by_cases hc38 : i.Opcode = 0x05
    case pos =>
      rw [if_pos hc38]
      exact fun hcon => Outcome.noConfusion hcon
    rw [if_neg hc38]
    by_cases hc39 : i.Opcode = 0x15
    case pos =>
      rw [if_pos hc39]
      exact bindR_ne_oob (readReg_isSome hd2) fun d hcon => Outcome.noConfusion hcon
    rw [if_neg hc39]
    by_cases hc40 : i.Opcode = 0x1d
    case pos =>
      rw [if_pos hc40]
      exact bindR_ne_oob (readReg_isSome hd2) fun d =>
        bindR_ne_oob (readReg_isSome hs2) fun v hcon => Outcome.noConfusion hcon
    rw [if_neg hc40]
    by_cases hc41 : i.Opcode = 0x25
    case pos =>
      rw [if_pos hc41]
      exact bindR_ne_oob (readReg_isSome hd2) fun d hcon => Outcome.noConfusion hcon
    rw [if_neg hc41]
    by_cases hc42 : i.Opcode = 0x2d
    case pos =>
      rw [if_pos hc42]
      exact bindR_ne_oob (readReg_isSome hd2) fun d =>
        bindR_ne_oob (readReg_isSome hs2) fun v hcon => Outcome.noConfusion hcon
    rw [if_neg hc42]
    by_cases hc43 : i.Opcode = 0x35
    case pos =>
      rw [if_pos hc43]
      exact bindR_ne_oob (readReg_isSome hd2) fun d hcon => Outcome.noConfusion hcon
    rw [if_neg hc43]
    by_cases hc44 : i.Opcode = 0x3d
    case pos =>
      rw [if_pos hc44]
      exact bindR_ne_oob (readReg_isSome hd2) fun d =>
        bindR_ne_oob (readReg_isSome hs2) fun v hcon => Outcome.noConfusion hcon
    rw [if_neg hc44]
    by_cases hc45 : i.Opcode = 0xa5
    case pos =>
      rw [if_pos hc45]
      exact bindR_ne_oob (readReg_isSome hd2) fun d hcon => Outcome.noConfusion hcon
    rw [if_neg hc45]
    by_cases hc46 : i.Opcode = 0xad
    case pos =>
      rw [if_pos hc46]
      exact bindR_ne_oob (readReg_isSome hd2) fun d =>
        bindR_ne_oob (readReg_isSome hs2) fun v hcon => Outcome.noConfusion hcon
    rw [if_neg hc46]
    by_cases hc47 : i.Opcode = 0xb5
    case pos =>
      rw [if_pos hc47]
      exact bindR_ne_oob (readReg_isSome hd2) fun d hcon => Outcome.noConfusion hcon
    rw [if_neg hc47]
    by_cases hc48 : i.Opcode = 0xbd
    case pos =>
      rw [if_pos hc48]
      exact bindR_ne_oob (readReg_isSome hd2) fun d =>
        bindR_ne_oob (readReg_isSome hs2) fun v hcon => Outcome.noConfusion hcon
    rw [if_neg hc48]
    by_cases hc49 : i.Opcode = 0x45
    case pos =>
      rw [if_pos hc49]
      exact bindR_ne_oob (readReg_isSome hd2) fun d hcon => Outcome.noConfusion hcon
    rw [if_neg hc49]
    by_cases hc50 : i.Opcode = 0x4d
    case pos =>
      rw [if_pos hc50]
      exact bindR_ne_oob (readReg_isSome hd2) fun d =>
        bindR_ne_oob (readReg_isSome hs2) fun v hcon => Outcome.noConfusion hcon
    rw [if_neg hc50]
    by_cases hc51 : i.Opcode = 0x55
    case pos =>
      rw [if_pos hc51]
      exact bindR_ne_oob (readReg_isSome hd2) fun d hcon => Outcome.noConfusion hcon
    rw [if_neg hc51]
    by_cases hc52 : i.Opcode = 0x5d
    case pos =>
      rw [if_pos hc52]
      exact bindR_ne_oob (readReg_isSome hd2) fun d =>
        bindR_ne_oob (readReg_isSome hs2) fun v hcon => Outcome.noConfusion hcon
    rw [if_neg hc52]
    by_cases hc53 : i.Opcode = 0x65
    case pos =>
      rw [if_pos hc53]
      exact bindR_ne_oob (readReg_isSome hd2) fun d hcon => Outcome.noConfusion hcon
    rw [if_neg hc53]
    by_cases hc54 : i.Opcode = 0x6d
    case pos =>
      rw [if_pos hc54]
      exact bindR_ne_oob (readReg_isSome hd2) fun d =>
        bindR_ne_oob (readReg_isSome hs2) fun v hcon => Outcome.noConfusion hcon
    rw [if_neg hc54]
    by_cases hc55 : i.Opcode = 0x75
    case pos =>
      rw [if_pos hc55]
      exact bindR_ne_oob (readReg_isSome hd2) fun d hcon => Outcome.noConfusion hcon
    rw [if_neg hc55]
    by_cases hc56 : i.Opcode = 0x7d
    case pos =>
      rw [if_pos hc56]
      exact bindR_ne_oob (readReg_isSome hd2) fun d =>
        bindR_ne_oob (readReg_isSome hs2) fun v hcon => Outcome.noConfusion hcon
    rw [if_neg hc56]
    by_cases hc57 : i.Opcode = 0xc5
    case pos =>
      rw [if_pos hc57]
      exact bindR_ne_oob (readReg_isSome hd2) fun d hcon => Outcome.noConfusion hcon
    rw [if_neg hc57]
    by_cases hc58 : i.Opcode = 0xcd
    case pos =>
      rw [if_pos hc58]
      exact bindR_ne_oob (readReg_isSome hd2) fun d =>
        bindR_ne_oob (readReg_isSome hs2) fun v hcon => Outcome.noConfusion hcon
    rw [if_neg hc58]
    by_cases hc59 : i.Opcode = 0xd5
    case pos =>
      rw [if_pos hc59]
      exact bindR_ne_oob (readReg_isSome hd2) fun d hcon => Outcome.noConfusion hcon
    rw [if_neg hc59]
    by_cases hc60 : i.Opcode = 0xdd
    case pos =>
      rw [if_pos hc60]
      exact bindR_ne_oob (readReg_isSome hd2) fun d =>
        bindR_ne_oob (readReg_isSome hs2) fun v hcon => Outcome.noConfusion hcon
    rw [if_neg hc60]
    by_cases hc61 : i.Opcode = 0x85
    case pos =>
      rw [if_pos hc61]
      exact bindR_ne_oob (writeReg_isSome h8 _) fun t hcon => Outcome.noConfusion hcon
    rw [if_neg hc61]
    by_cases hc62 : i.Opcode = 0x95
    case pos =>
      rw [if_pos hc62]
      exact fun hcon => Outcome.noConfusion hcon
    rw [if_neg hc62]
    exact fun hcon => Outcome.noConfusion hcon
  · exact ⟨{ Opcode := 0xb7, Dst := 11, Src := 0, Offset := 0, Imm := 0 },
      initState, rfl, rfl, by rfl⟩

/-- Claim C1: interpreting the six-instruction sample program
`[MOV r1,5][MOV r2,9][ADD r1+=r2][MOV r0=r1][SUB r0-=3][EXIT]` terminates
normally via the exit instruction with register 0 holding 11, register 1
holding 14, register 2 holding 9, and every other register holding 0. -/
theorem sample_program_terminates_r0_eq_11 :
    InterpretFuel sampleBytecode 10 = some (.exited sampleFinalState) := by
  rfl

/-- Claim C3 (failing input): executing `DIV_IMM` with immediate 0 on a state
holding 7 in the destination register does not produce a defined
division-by-zero error; the Go code divides unguarded, which is a runtime
panic aborting the whole run. -/
theorem div_imm_zero_panics :
    Execute { Opcode := 0x37, Dst := 0, Src := 0, Offset := 0, Imm := 0 }
      { Memory := [], Regs := [7, 3, 0, 0, 0, 0, 0, 0, 0, 0, 0], PC := 0 } =
      .panic .divideByZero := by
  rfl

/-- Claim C4 (failing input): a 9-byte input (one full instruction plus one
trailing byte) does not yield a malformed-input fault; the decode loop of
`Interpret` indexes past the end of the byte slice, a runtime panic. -/
theorem trailing_partial_chunk_panics :
    InterpretFuel [0xb7, 0x00, 0x00, 0x00, 0x05, 0x00, 0x00, 0x00, 0xff] 10 =
      some (.panicked .indexOutOfRange) := by
  rfl

/-- Claim C5 (failing input): the multiply-by-register opcode is an empty
switch case in the source; with r1 = 5 and r2 = 9, executing
`MUL_REG r1 *= r2` leaves the state — in particular r1 = 5, not 45 —
completely unchanged. -/
theorem mul_reg_is_noop :
    Execute { Opcode := 0x2f, Dst := 1, Src := 2, Offset := 0, Imm := 0 }
      { Memory := [], Regs := [0, 5, 9, 0, 0, 0, 0, 0, 0, 0, 0], PC := 0 } =
      .ok { Memory := [], Regs := [0, 5, 9, 0, 0, 0, 0, 0, 0, 0, 0], PC := 0 } := by
  rfl

/-- Claim C6 (failing input): arithmetic-right-shift by immediate 1 on a
register holding -8 yields the large positive value 9223372036854775804, not
-4: the source shifts `uint64(reg)` logically, discarding the sign bit. -/
theorem arsh_imm_is_logical_shift :
    Execute { Opcode := 0xc7, Dst := 0, Src := 0, Offset := 0, Imm := 1 }
      { Memory := [], Regs := [-8, 0, 0, 0, 0, 0, 0, 0, 0, 0, 0], PC := 0 } =
      .ok { Memory := [],
            Regs := [9223372036854775804, 0, 0, 0, 0, 0, 0, 0, 0, 0, 0],
            PC := 0 } := by
  rfl

/-- Claim C2 (counterexample): a store-word at effective address 0 into the
empty memory of the zero state is out of bounds, yet `Execute` reports
success with the state unchanged: the bounds-check error computed by the
store helper is discarded, so no memory fault is surfaced to the caller. -/
theorem store_oob_reports_success :
    Execute { Opcode := 0x62, Dst := 0, Src := 0, Offset := 0, Imm := 5 }
      initState = .ok initState := by
  decide

/-- Claim C10 (counterexample): the precondition `dst ≤ 10` and `src ≤ 10`
does not make `Execute` total: a `DIV_IMM` instruction with immediate 0 has
both indices equal to 0, an 11-entry register file, and still panics with a
division by zero. -/
theorem execute_panics_within_register_bounds :
    initState.Regs.length = 11 ∧
      (0 : Nat) ≤ 10 ∧ (0 : Nat) ≤ 10 ∧
      Execute { Opcode := 0x37, Dst := 0, Src := 0, Offset := 0, Imm := 0 }
        initState = .panic .divideByZero := by
  refine ⟨rfl, by decide, by decide, rfl⟩

/-- Witness for the C9 round-trip at memory `[9,9,9,9,9]`, address 1,
value -2. -/
theorem store_load_word_roundtrip_witness :
    ((0 : Int) ≤ 1 ∧ (1 : Int) + 4 ≤ (([9, 9, 9, 9, 9] : List Nat).length : Int) ∧
      -2147483648 ≤ (-2 : Int) ∧ (-2 : Int) < 2147483648) ∧
    ∃ mm, storeWordMem [9, 9, 9, 9, 9] 1 (-2) = .ok mm ∧
      mm.length = ([9, 9, 9, 9, 9] : List Nat).length ∧
      loadWordMem mm 1 = some ((-2 : Int) % 4294967296) ∧
      wrapS 32 ((-2 : Int) % 4294967296) = -2 :=
  ⟨⟨by decide, by decide, by decide, by decide⟩,
    store_load_word_roundtrip [9, 9, 9, 9, 9] 1 (-2) (by decide) (by decide)
      (by decide) (by decide)⟩

/-- Witness for the C8 extension claims at memory `[254, 255, 1, 128]`,
address 0. -/
theorem load_sign_and_zero_extension_witness :
    ((∀ x ∈ ([254, 255, 1, 128] : List Nat), x < 256) ∧ (0 : Int) ≤ 0 ∧
      (0 : Int) + 4 ≤ ((([254, 255, 1, 128] : List Nat).length : Nat) : Int)) ∧
    (loadHalfWordMem [254, 255, 1, 128] 0 =
        some (sint16 (getByte [254, 255, 1, 128] 0 +
          256 * getByte [254, 255, 1, 128] (0 + 1))) ∧
      -32768 ≤ sint16 (getByte [254, 255, 1, 128] 0 +
        256 * getByte [254, 255, 1, 128] (0 + 1)) ∧
      sint16 (getByte [254, 255, 1, 128] 0 +
        256 * getByte [254, 255, 1, 128] (0 + 1)) < 32768) ∧
    (loadByteMem [254, 255, 1, 128] 0 = some (sint8 (getByte [254, 255, 1, 128] 0)) ∧
      -128 ≤ sint8 (getByte [254, 255, 1, 128] 0) ∧
      sint8 (getByte [254, 255, 1, 128] 0) < 128) ∧
    (loadWordMem [254, 255, 1, 128] 0 =
        some ((getByte [254, 255, 1, 128] 0 + 256 * getByte [254, 255, 1, 128] (0 + 1) +
          65536 * getByte [254, 255, 1, 128] (0 + 2) +
          16777216 * getByte [254, 255, 1, 128] (0 + 3) : Nat) : Int) ∧
      (0 : Int) ≤ ((getByte [254, 255, 1, 128] 0 + 256 * getByte [254, 255, 1, 128] (0 + 1) +
          65536 * getByte [254, 255, 1, 128] (0 + 2) +
          16777216 * getByte [254, 255, 1, 128] (0 + 3) : Nat) : Int) ∧
      ((getByte [254, 255, 1, 128] 0 + 256 * getByte [254, 255, 1, 128] (0 + 1) +
          65536 * getByte [254, 255, 1, 128] (0 + 2) +
          16777216 * getByte [254, 255, 1, 128] (0 + 3) : Nat) : Int) < 4294967296) :=
  ⟨⟨by decide, by decide, by decide⟩,
    load_sign_and_zero_extension.1 [254, 255, 1, 128] 0 (by decide) (by decide) (by decide),
    load_sign_and_zero_extension.2.1 [254, 255, 1, 128] 0 (by decide) (by decide) (by decide),
    load_sign_and_zero_extension.2.2 [254, 255, 1, 128] 0 (by decide) (by decide) (by decide)⟩

/-- Witness for the C7 decoder-layout claim at the sample bytecode. -/
theorem decode_layout_witness :
    ((∀ x ∈ sampleBytecode, x < 256) ∧ sampleBytecode.length % 8 = 0) ∧
    ∃ prog, decodeChunks sampleBytecode = some prog ∧
      prog.length = sampleBytecode.length / 8 ∧
      ∀ k, k < prog.length → prog[k]? = some (specDecode sampleBytecode k) :=
  ⟨⟨by decide, by decide⟩, decode_layout sampleBytecode (by decide) (by decide)⟩

/-- Witness for the amended C2 claim: a guarded out-of-bounds store-word
into the zero state's empty memory succeeds with nothing changed, a guarded
out-of-bounds load-word succeeds depositing 0, and at base address
`2^63 - 2` — where the guard's wrapping sum passes — both the store and the
load abort with the memory-access panic. -/
theorem store_oob_silent_load_oob_zero_witness :
    (storeWidth 0x62 = some 4 ∧
      memGuardFails initState.Memory
        (effStoreAddr initState { Opcode := 0x62, Dst := 1, Src := 0, Offset := 3, Imm := 7 }) 4 ∧
      Execute { Opcode := 0x62, Dst := 1, Src := 0, Offset := 3, Imm := 7 }
        initState = .ok initState) ∧
    (loadWidthOp 0x61 = some 4 ∧
      Execute { Opcode := 0x61, Dst := 2, Src := 1, Offset := 0, Imm := 0 }
        initState = .ok { initState with Regs := initState.Regs.set 2 0 }) ∧
    (¬ memGuardFails hugeAddrState.Memory
        (effStoreAddr hugeAddrState { Opcode := 0x62, Dst := 0, Src := 0, Offset := 0, Imm := 1 }) 4 ∧
      Execute { Opcode := 0x62, Dst := 0, Src := 0, Offset := 0, Imm := 1 }
        hugeAddrState = .panic .memAccessOutOfRange) ∧
    (Execute { Opcode := 0x61, Dst := 2, Src := 0, Offset := 0, Imm := 0 }
        hugeAddrState = .panic .memAccessOutOfRange) :=
  ⟨⟨by decide, by decide, store_oob_silent_load_oob_zero.1
      { Opcode := 0x62, Dst := 1, Src := 0, Offset := 3, Imm := 7 } initState 4
      (by decide) (by decide) (by decide) (by decide)⟩,
   ⟨by decide, store_oob_silent_load_oob_zero.2.1
      { Opcode := 0x61, Dst := 2, Src := 1, Offset := 0, Imm := 0 } initState 4
      (by decide) (by decide) (by decide) (by decide)⟩,
   ⟨by decide, store_oob_silent_load_oob_zero.2.2.1
      { Opcode := 0x62, Dst := 0, Src := 0, Offset := 0, Imm := 1 } hugeAddrState 4
      (by decide) (by decide) (by decide) (by decide) (by decide)⟩,
   store_oob_silent_load_oob_zero.2.2.2
      { Opcode := 0x61, Dst := 2, Src := 0, Offset := 0, Imm := 0 } hugeAddrState 4
      (by decide) (by decide) (by decide) (by decide) (by decide)⟩

/-- Witness for the amended C10 claim: a decoded byte `0xff` yields nibble
indices at most 15, and an add-immediate at `dst = 10` on the zero state
raises no index-out-of-range panic. -/
theorem decoded_nibbles_and_register_safety_witness :
    ((mkInsn 0x07 0xff 0 0 0 0 0 0).Dst ≤ 15 ∧
      (mkInsn 0x07 0xff 0 0 0 0 0 0).Src ≤ 15) ∧
    (initState.Regs.length = 11 ∧
      Execute { Opcode := 0x07, Dst := 10, Src := 0, Offset := 0, Imm := 1 }
        initState ≠ .panic .indexOutOfRange) :=
  ⟨decoded_nibbles_and_register_safety.1 0x07 0xff 0 0 0 0 0 0,
   ⟨rfl, decoded_nibbles_and_register_safety.2.1
      { Opcode := 0x07, Dst := 10, Src := 0, Offset := 0, Imm := 1 } initState
      rfl (by decide) (by decide)⟩⟩

end EBPF
